import Mathlib

/-!
Verification of the picoCTF problem module (picoCTF-web/api/api/problem.py).

The Python module is shallowly embedded below.  Mongo documents become
structures, the two collections become lists held in a `DB` record, and every
operation of the module becomes a pure function over `DB`.  Python exceptions
become an `Except Err` result.  External collaborators that are not part of
the repository source (pymongo, the grader plugins, api.common helpers and the
user directory) are modelled from the specification, as documented on each
definition.
-/

namespace PicoCTF

/-- Error kinds of the module.  `validation` stands for a failed
api.common.check/validate, `web` for WebException (user-facing rejection),
`internal` for InternalException and `severeInternal` for
SevereInternalException. -/
inductive Err where
  | validation (msg : String)
  | web (msg : String)
  | internal (msg : String)
  | severeInternal (msg : String)
deriving Repr, DecidableEq

/-- A stored problem document.  `threshold` and `weightmap` are optional
because get_unlocked_pids explicitly tests the presence of exactly these two
keys on the stored document; `insert_problem` always writes both.  `pid` is
the server-derived identifier. -/
structure StoredProblem where
  name : String
  score : Nat
  category : String
  grader : String
  description : String
  threshold : Option Nat
  disabled : Bool
  autogen : Option Bool
  related_problems : Option (List String)
  weightmap : Option (List (String × Int))
  tags : Option (List String)
  hint : Option String
  pid : String
deriving Repr, DecidableEq

/-- A problem payload as supplied to insert_problem, before the server adds
the derived fields.  The problem_schema admits exactly these fields with
these types (score and threshold are nonnegative integers, hence Nat), and
rejects any payload carrying a pid or _id, so the typed payload has neither. -/
structure ProblemInput where
  name : String
  score : Nat
  category : String
  grader : String
  description : String
  threshold : Nat
  disabled : Option Bool
  autogen : Option Bool
  related_problems : Option (List String)
  weightmap : Option (List (String × Int))
  tags : Option (List String)
  hint : Option String
deriving Repr, DecidableEq

/-- A stored submission document, fields in the order submit_key builds them. -/
structure Submission where
  uid : String
  tid : String
  timestamp : Nat
  pid : String
  ip : Option String
  key : String
  category : String
  correct : Bool
deriving Repr, DecidableEq

/-- The persistent store: the problems and submissions collections, plus the
user directory (an external collaborator, modelled from the spec as the set
of existing uids). -/
structure DB where
  problems : List StoredProblem
  submissions : List Submission
  users : List String
deriving Repr, DecidableEq

/-- One invocation of a grader routine: grade(uid, key) against the problem
pid's registered grader. -/
structure GraderCall where
  pid : String
  key : String
  uid : Option String
deriving Repr, DecidableEq

/-- Result dictionary of grade_problem. -/
structure GradeResult where
  correct : Bool
  points : Nat
  message : String
deriving Repr, DecidableEq

/-- Modelled from the spec: the grader registry resolves a problem's grader
reference to an executable routine grade(uid, key) -> (correct, message);
`none` models a missing grader file (FileNotFoundError on load). -/
def GraderEnv : Type := String → Option (Option String → String → Bool × String)

/-- Modelled from the spec: the user directory (api.user.get_user, not under
src/) resolves a uid to a user record and is used only for existence
checking; an absent or unresolvable uid yields no user. -/
def get_user (users : List String) (uid : Option String) : Option String :=
  match uid with
  | some u => if u ∈ users then some u else none
  | none => none

/-- Modelled from the spec: api.common.hash (not under src/) derives a
stable, collision-resistant, opaque pid string from the problem's display
name; modelled as an injective tagging of the name. -/
def hash (name : String) : String := "pid-" ++ name

/-- The mongo find filter that every problem read uses: the document's
disabled flag must equal show_disabled exactly, plus the pid filter when a
pid is given, else the name filter when a name is given. -/
def problem_match (pidm namem : Option String) (sd : Bool) (p : StoredProblem) : Bool :=
  p.disabled == sd &&
    (match pidm with
     | some i => p.pid == i
     | none =>
       match namem with
       | some n => p.name == n
       | none => true)

/-- Message of the SevereInternalException raised when a problem lookup finds
nothing (the Python message also appends the rendered filter; the constant
prefix is kept). -/
def could_not_find_msg : String := "Could not find problem!"

/-- get_problem (problem.py:451).  The tid-gated variant (which rejects the
lookup when the problem is locked for the team) is exercised only by the
HTTP layer; every call site inside this module passes no tid, so the
embedding takes the pid/name/show_disabled arguments. -/
def get_problem (db : DB) (pidm namem : Option String) (show_disabled : Bool) :
    Except Err StoredProblem :=
  match pidm, namem with
  | none, none => Except.error (Err.internal "Must supply pid or display name")
  | _, _ =>
    match db.problems.find? (problem_match pidm namem show_disabled) with
    | some p => Except.ok p
    | none => Except.error (Err.severeInternal could_not_find_msg)

/-- Stable insertion of a problem into a score-sorted list (models the mongo
sort by score ascending in get_all_problems). -/
def insert_sorted (p : StoredProblem) : List StoredProblem → List StoredProblem
  | [] => [p]
  | q :: rest => if p.score ≤ q.score then p :: q :: rest else q :: insert_sorted p rest

/-- Stable sort of the problems collection by score ascending. -/
def sort_by_score : List StoredProblem → List StoredProblem
  | [] => []
  | p :: rest => insert_sorted p (sort_by_score rest)

/-- get_all_problems (problem.py:484): all problems whose disabled flag
equals show_disabled, optionally restricted to a category, sorted by score
ascending. -/
def get_all_problems (db : DB) (category : Option String) (show_disabled : Bool) :
    List StoredProblem :=
  sort_by_score (db.problems.filter (fun p =>
    p.disabled == show_disabled &&
      (match category with
       | some c => p.category == c
       | none => true)))

/-- get_submissions (problem.py:301): filter by uid, else by tid, plus the
optional pid and category filters. -/
def get_submissions (db : DB) (pidm uidm tidm categorym : Option String) :
    List Submission :=
  db.submissions.filter (fun s =>
    (match uidm with
     | some u => s.uid == u
     | none =>
       match tidm with
       | some t => s.tid == t
       | none => true) &&
    (match pidm with
     | some i => s.pid == i
     | none => true) &&
    (match categorym with
     | some c => s.category == c
     | none => true))

/-- get_solved_pids (problem.py:503): the pids of the team's correct
submissions (a list, in submission order). -/
def get_solved_pids (db : DB) (tid : String) (category : Option String) :
    List String :=
  ((get_submissions db none none (some tid) category).filter
    (fun s => s.correct)).map (fun s => s.pid)

/-- The list comprehension of get_solved_problems: resolve each pid through
get_problem, propagating the first failure (a removed or disabled solved
problem raises SevereInternalException). -/
def fetch_problems (db : DB) : List String → Except Err (List StoredProblem)
  | [] => Except.ok []
  | i :: rest =>
    match get_problem db (some i) none false with
    | Except.error e => Except.error e
    | Except.ok p =>
      match fetch_problems db rest with
      | Except.error e => Except.error e
      | Except.ok ps => Except.ok (p :: ps)

/-- get_solved_problems (problem.py:517). -/
def get_solved_problems (db : DB) (tid : String) (category : Option String) :
    Except Err (List StoredProblem) :=
  fetch_problems db (get_solved_pids db tid category)

/-- The per-problem unlock test of get_unlocked_pids: a problem lacking a
weightmap key or a threshold key is unconditionally unlocked; otherwise the
sum over the solved problems of the weightmap entry for that solved pid
(default 0) must reach the threshold. -/
def problem_unlocked (solved : List StoredProblem) (problem : StoredProblem) : Bool :=
  match problem.weightmap, problem.threshold with
  | some wm, some thr =>
    decide ((thr : Int) ≤ (solved.map (fun p => ((wm.lookup p.pid).getD 0))).sum)
  | _, _ => true

/-- get_unlocked_pids (problem.py:530).  Note that the category argument is
passed to get_solved_problems (restricting the solved side) while the
iterated problems always come from get_all_problems with no category. -/
def get_unlocked_pids (db : DB) (tid : String) (category : Option String) :
    Except Err (List String) :=
  match get_solved_problems db tid category with
  | Except.error e => Except.error e
  | Except.ok solved =>
    Except.ok (((get_all_problems db none false).filter
      (problem_unlocked solved)).map (fun p => p.pid))

/-- grade_problem (problem.py:219).  Returns the grader invocations it
performed alongside the result; a missing grader file raises the offline
WebException before any invocation. -/
def grade_problem (env : GraderEnv) (db : DB) (pid key : String) (uid : Option String) :
    List GraderCall × Except Err GradeResult :=
  match get_problem db (some pid) none false with
  | Except.error e => ([], Except.error e)
  | Except.ok problem =>
    match env problem.grader with
    | none =>
      ([], Except.error (Err.web
        ("Problem grader for " ++ problem.name ++ " is offline.")))
    | some f =>
      let r := f uid key
      ([⟨pid, key, uid⟩], Except.ok ⟨r.1, problem.score, r.2⟩)

/-- submit_key (problem.py:249).  Returns the grader invocations performed
during the attempt together with either the raised error or the grading
result and the store extended with the new submission.  The order of the
steps follows the source: validation, unlock gate, already-solved gate, user
resolution, grading, then the duplicate-attempt check, then the insert. -/
def submit_key (env : GraderEnv) (db : DB) (tid pid key : String)
    (uid : Option String) (ip : Option String) (now : Nat) :
    List GraderCall × Except Err (GradeResult × DB) :=
  if 100 < tid.length then
    ([], Except.error (Err.validation "This does not look like a valid tid."))
  else if 100 < pid.length then
    ([], Except.error (Err.validation "This does not look like a valid pid."))
  else if 100 < key.length then
    ([], Except.error (Err.validation "This does not look like a valid key."))
  else
    match get_unlocked_pids db tid none with
    | Except.error e => ([], Except.error e)
    | Except.ok unlocked =>
      if pid ∉ unlocked then
        ([], Except.error (Err.internal
          "You can't submit flags to problems you haven't unlocked."))
      else if pid ∈ get_solved_pids db tid none then
        ([], Except.error (Err.web "You have already solved this problem."))
      else
        match get_user db.users uid with
        | none => ([], Except.error (Err.internal "User submitting flag does not exist."))
        | some u0 =>
          match grade_problem env db pid key (some u0) with
          | (log, Except.error e) => (log, Except.error e)
          | (log, Except.ok result) =>
            match get_problem db (some pid) none false with
            | Except.error e => (log, Except.error e)
            | Except.ok problem =>
              let submission : Submission :=
                ⟨u0, tid, now, pid, ip, key, problem.category, result.correct⟩
              if (key, pid) ∈ (get_submissions db none none (some tid) none).map
                  (fun s => (s.key, s.pid)) then
                (log, Except.error (Err.web
                  "You or one of your teammates has already tried this solution."))
              else
                (log, Except.ok (result,
                  { db with submissions := db.submissions ++ [submission] }))

/-- insert_problem (problem.py:87).  Validation against problem_schema holds
by construction of the typed payload (all fields correctly typed, score and
threshold nonnegative, no pid or _id supplied).  The payload is defaulted
(disabled := false when absent), the pid is derived from the name, the
weightmap keys are rehashed from names to pids, and the duplicate pid/name
checks go through get_problem with its default show_disabled=False; the
api.common.safe_fail wrapper (not under src/) is modelled from the spec as
turning a raised lookup error into None. -/
def insert_problem (db : DB) (p : ProblemInput) : Except Err (String × DB) :=
  if (get_problem db (some (hash p.name)) none false).isOk then
    Except.error (Err.web "Problem with identical pid already exists.")
  else if (get_problem db none (some p.name) false).isOk then
    Except.error (Err.web "Problem with identical name already exists.")
  else
    Except.ok (hash p.name,
      { db with problems := db.problems ++
          [⟨p.name, p.score, p.category, p.grader, p.description, some p.threshold,
            p.disabled.getD false, p.autogen, p.related_problems,
            some ((p.weightmap.getD []).map (fun nw => (hash nw.1, nw.2))),
            p.tags, p.hint, hash p.name⟩] })

/-- remove_problem (problem.py:136): load the problem (default
show_disabled=False), then delete every problem document with that pid. -/
def remove_problem (db : DB) (pid : String) : Except Err (StoredProblem × DB) :=
  match get_problem db (some pid) none false with
  | Except.error e => Except.error e
  | Except.ok problem =>
    Except.ok (problem,
      { db with problems := db.problems.filter (fun p => !(p.pid == pid)) })

/-- update_problem (problem.py:165): load the stored problem (default
show_disabled=False), shallow-merge the partial update over it (modelled as
a function on the stored document), then re-validate against problem_schema.
The merged document always still carries the stored pid field, which
problem_schema rejects unconditionally, so a successful lookup is always
followed by this validation failure. -/
def update_problem (db : DB) (pid : String) (upd : StoredProblem → StoredProblem) :
    Except Err (StoredProblem × DB) :=
  match get_problem db (some pid) none false with
  | Except.error e => Except.error e
  | Except.ok problem =>
    let _merged := upd problem
    Except.error (Err.validation "You should not specify a pid for a problem.")

/-- The filter of invalidate_submissions: the optional pid filter, and the
uid filter else the tid filter. -/
def submission_matches (pidm uidm tidm : Option String) (s : Submission) : Bool :=
  (match pidm with
   | some i => s.pid == i
   | none => true) &&
  (match uidm with
   | some u => s.uid == u
   | none =>
     match tidm with
     | some t => s.tid == t
     | none => true)

/-- pymongo collection.update without multi=True: only the first matching
document is written.  Both write sites of the module only ever put the
correct field in the update document, so the write is modelled as setting
that field on the matched document. -/
def mongo_update_one_correct (p : Submission → Bool) (b : Bool) :
    List Submission → List Submission
  | [] => []
  | s :: rest =>
    if p s then { s with correct := b } :: rest
    else s :: mongo_update_one_correct p b rest

/-- pymongo collection.update with multi=True: every matching document is
written (again only the correct field is ever updated by this module). -/
def mongo_update_multi_correct (p : Submission → Bool) (b : Bool)
    (l : List Submission) : List Submission :=
  l.map (fun s => if p s then { s with correct := b } else s)

/-- invalidate_submissions (problem.py:397): builds the pid/uid/tid filter
and issues a store update with correct=False.  The source calls
db.submissions.update without multi=True, so only the first matching
document is written. -/
def invalidate_submissions (db : DB) (pidm uidm tidm : Option String) : DB :=
  { db with submissions :=
      mongo_update_one_correct (submission_matches pidm uidm tidm) false db.submissions }

/-- The first loop of reevaluate_submissions_for_problem: walk the problem's
submissions, grade each key the first time it is seen (uid None), and record
the new outcome when it differs from that first submission's stored correct
flag (None when unchanged).  A grading failure propagates, as the Python
exception would. -/
def reevaluate_collect (env : GraderEnv) (db : DB) (pid : String) :
    List Submission → List (String × Option Bool) →
    Except Err (List (String × Option Bool))
  | [], keys => Except.ok keys
  | sub :: rest, keys =>
    if (keys.lookup sub.key).isSome then reevaluate_collect env db pid rest keys
    else
      match (grade_problem env db pid sub.key none).2 with
      | Except.error e => Except.error e
      | Except.ok r =>
        reevaluate_collect env db pid rest
          (keys ++ [(sub.key, if r.correct ≠ sub.correct then some r.correct else none)])

/-- reevaluate_submissions_for_problem (problem.py:422): after checking the
problem exists (and is enabled), grade each distinct key of the problem's
submissions once, then for every key whose outcome changed issue a
multi-document store update filtered on the key alone (the source filter is
the key with no pid restriction). -/
def reevaluate_submissions_for_problem (env : GraderEnv) (db : DB) (pid : String) :
    Except Err DB :=
  match get_problem db (some pid) none false with
  | Except.error e => Except.error e
  | Except.ok _ =>
    match reevaluate_collect env db pid
        (get_submissions db (some pid) none none none) [] with
    | Except.error e => Except.error e
    | Except.ok keys =>
      let apply_change := fun (subs : List Submission) (kc : String × Option Bool) =>
        match kc.2 with
        | some change => mongo_update_multi_correct (fun s => s.key == kc.1) change subs
        | none => subs
      Except.ok { db with submissions := keys.foldl apply_change db.submissions }

/-! Concrete fixtures used by the claim theorems and witnesses. -/

/-- A store with three submissions, two of them by team t1. -/
def c1_db : DB :=
  ⟨[], [⟨"u1", "t1", 0, "pid-P", none, "k1", "misc", true⟩,
        ⟨"u2", "t1", 1, "pid-P", none, "k2", "misc", true⟩,
        ⟨"u3", "t2", 2, "pid-P", none, "k1", "misc", true⟩], []⟩

/-- Graders for the reevaluation scenario: P1's grader now accepts flag1,
P2's grader accepts nothing. -/
def c2_env : GraderEnv := fun g =>
  if g == "g1" then some (fun _ k => (k == "flag1", "graded"))
  else if g == "g2" then some (fun _ _ => (false, "nope"))
  else none

/-- Two problems and one stored incorrect submission against each, both
submissions carrying the same key text flag1. -/
def c2_db : DB :=
  ⟨[⟨"P1", 10, "misc", "g1", "d", some 0, false, none, none, some [], none, none, "pid-P1"⟩,
    ⟨"P2", 20, "misc", "g2", "d", some 0, false, none, none, some [], none, none, "pid-P2"⟩],
   [⟨"u1", "t1", 0, "pid-P1", none, "flag1", "misc", false⟩,
    ⟨"u2", "t2", 1, "pid-P2", none, "flag1", "misc", false⟩], []⟩

/-- Problem A (threshold 0) unlocking B (threshold 1, weightmap A:1); team t1
has solved A with a submission whose denormalized category is crypto. -/
def c3_db : DB :=
  ⟨[⟨"A", 10, "crypto", "ga", "d", some 0, false, none, none, some [], none, none, "pid-A"⟩,
    ⟨"B", 20, "web", "gb", "d", some 1, false, none, none, some [("pid-A", 1)], none, none, "pid-B"⟩],
   [⟨"u1", "t1", 0, "pid-A", none, "k", "crypto", true⟩], []⟩

/-- A working grader for problem P accepting the key flag. -/
def c4_env : GraderEnv := fun g =>
  if g == "g" then some (fun _ k => (k == "flag", "msg")) else none

/-- One unlocked problem and a prior incorrect attempt of team t1 with key
wrong, so resubmitting wrong is a duplicate. -/
def c4_db : DB :=
  ⟨[⟨"P", 10, "misc", "g", "d", some 0, false, none, none, some [], none, none, "pid-P"⟩],
   [⟨"u1", "t1", 0, "pid-P", none, "wrong", "misc", false⟩], ["u1"]⟩

/-- A problem with threshold 0 and weightmap A:1; nothing is solved. -/
def c5_cex_db : DB :=
  ⟨[⟨"P", 20, "misc", "gp", "d", some 0, false, none, none, some [("pid-A", 1)], none, none, "pid-P"⟩],
   [], []⟩

/-- Prerequisite problem A and the gated problem P (threshold 2, weightmap
A:3); team tX has solved A. -/
def c5_wit_db : DB :=
  ⟨[⟨"A", 10, "misc", "ga", "d", some 0, false, none, none, some [], none, none, "pid-A"⟩,
    ⟨"P", 20, "misc", "gp", "d", some 2, false, none, none, some [("pid-A", 3)], none, none, "pid-P"⟩],
   [⟨"u1", "tX", 0, "pid-A", none, "k", "misc", true⟩], []⟩

/-- One unlocked problem, no submissions yet, one known user. -/
def c6_db : DB :=
  ⟨[⟨"P", 10, "misc", "g", "d", some 0, false, none, none, some [], none, none, "pid-P"⟩],
   [], ["u1"]⟩

/-- Team t1 has a correct submission for B, but B's unlock threshold is no
longer met (its prerequisite A is unsolved, e.g. after an invalidation), so
B is solved yet locked for t1. -/
def c7_cex_db : DB :=
  ⟨[⟨"A", 10, "misc", "ga", "d", some 0, false, none, none, some [], none, none, "pid-A"⟩,
    ⟨"B", 20, "misc", "gb", "d", some 1, false, none, none, some [("pid-A", 1)], none, none, "pid-B"⟩],
   [⟨"u1", "t1", 0, "pid-B", none, "oldflag", "misc", true⟩], ["u1"]⟩

/-- One unlocked problem that team t1 has already solved with key flag. -/
def c7_wit_db : DB :=
  ⟨[⟨"P", 10, "misc", "g", "d", some 0, false, none, none, some [], none, none, "pid-P"⟩],
   [⟨"u1", "t1", 0, "pid-P", none, "flag", "misc", true⟩], ["u1"]⟩

/-- A payload that explicitly sets disabled=true. -/
def c8_pay : ProblemInput := ⟨"X", 5, "c", "g", "d", 3, some true, none, none, none, none, none⟩

/-- The store after inserting c8_pay into an empty store. -/
def c8_db1 : DB :=
  ⟨[⟨"X", 5, "c", "g", "d", some 3, true, none, none, some [], none, none, "pid-X"⟩], [], []⟩

/-- A payload with no disabled field for the roundtrip witness. -/
def c8_wit_pay : ProblemInput :=
  ⟨"Y", 5, "c", "g", "d", 3, none, none, none, some [("Y", 2)], none, none⟩

/-- A store already holding a disabled problem named X. -/
def c9_db : DB :=
  ⟨[⟨"X", 5, "c", "g", "d", some 3, true, none, none, some [], none, none, "pid-X"⟩], [], []⟩

/-- A second payload reusing the name X. -/
def c9_pay : ProblemInput := ⟨"X", 7, "c2", "g2", "d2", 1, none, none, none, none, none, none⟩

/-- A store holding an enabled problem named X for the c9 witness. -/
def c9_wit_db : DB :=
  ⟨[⟨"X", 5, "c", "g", "d", some 3, false, none, none, some [], none, none, "pid-X"⟩], [], []⟩

/-- A store whose only problem with pid pid-X is disabled. -/
def c10_db : DB :=
  ⟨[⟨"X", 5, "c", "g", "d", some 3, true, none, none, some [], none, none, "pid-X"⟩], [], []⟩

/-! Helper lemmas about the embedded store operations. -/

theorem mem_insert_sorted {a p : StoredProblem} {l : List StoredProblem} :
    a ∈ insert_sorted p l ↔ a = p ∨ a ∈ l := by
  induction l with
  | nil => simp [insert_sorted]
  | cons q rest ih =>
    simp only [insert_sorted]
    split
    · simp [List.mem_cons]
    · simp [List.mem_cons, ih]
      tauto

theorem mem_sort_by_score {a : StoredProblem} {l : List StoredProblem} :
    a ∈ sort_by_score l ↔ a ∈ l := by
  induction l with
  | nil => simp [sort_by_score]
  | cons q rest ih => simp [sort_by_score, mem_insert_sorted, ih]

theorem mem_get_all_problems {db : DB} {Q : StoredProblem} {sd : Bool} :
    Q ∈ get_all_problems db none sd ↔ Q ∈ db.problems ∧ Q.disabled = sd := by
  unfold get_all_problems
  rw [mem_sort_by_score, List.mem_filter]
  simp

theorem get_problem_ok {db : DB} {i : String} {nm : Option String} {sd : Bool}
    {P : StoredProblem} (h : get_problem db (some i) nm sd = Except.ok P) :
    P ∈ db.problems ∧ P.disabled = sd ∧ P.pid = i := by
  unfold get_problem at h
  cases hf : db.problems.find? (problem_match (some i) nm sd) with
  | none => rw [hf] at h; exact absurd h (by simp)
  | some q =>
    rw [hf] at h
    have hq := List.find?_some hf
    have hmem := List.mem_of_find?_eq_some hf
    cases h
    unfold problem_match at hq
    simp only [Bool.and_eq_true, beq_iff_eq] at hq
    exact ⟨hmem, hq.1, hq.2⟩

theorem get_problem_pid_eq_find (db : DB) (i : String) (nm : Option String) (sd : Bool) :
    get_problem db (some i) nm sd =
      (match db.problems.find? (problem_match (some i) nm sd) with
       | some p => Except.ok p
       | none => Except.error (Err.severeInternal could_not_find_msg)) := rfl

theorem get_problem_name_eq_find (db : DB) (n : String) (sd : Bool) :
    get_problem db none (some n) sd =
      (match db.problems.find? (problem_match none (some n) sd) with
       | some p => Except.ok p
       | none => Except.error (Err.severeInternal could_not_find_msg)) := rfl

theorem get_problem_submissions_eq (db : DB) (s : List Submission)
    (pm nm : Option String) (sd : Bool) :
    get_problem { db with submissions := s } pm nm sd = get_problem db pm nm sd := rfl

theorem fetch_problems_submissions_eq (db : DB) (s : List Submission)
    (l : List String) :
    fetch_problems { db with submissions := s } l = fetch_problems db l := by
  induction l with
  | nil => rfl
  | cons i rest ih =>
    unfold fetch_problems
    rw [get_problem_submissions_eq, ih]

theorem fetch_problems_append {db : DB} {l₁ l₂ : List String}
    {a b : List StoredProblem} (h₁ : fetch_problems db l₁ = Except.ok a)
    (h₂ : fetch_problems db l₂ = Except.ok b) :
    fetch_problems db (l₁ ++ l₂) = Except.ok (a ++ b) := by
  induction l₁ generalizing a with
  | nil =>
    unfold fetch_problems at h₁
    cases h₁
    simpa using h₂
  | cons i rest ih =>
    rw [List.cons_append]
    unfold fetch_problems at h₁
    simp only [fetch_problems]
    cases hp : get_problem db (some i) none false with
    | error e => rw [hp] at h₁; exact absurd h₁ (by simp)
    | ok p =>
      rw [hp] at h₁
      cases hr : fetch_problems db rest with
      | error e => rw [hr] at h₁; exact absurd h₁ (by simp)
      | ok ps =>
        rw [hr] at h₁
        cases h₁
        rw [ih hr]
        rfl

theorem fetch_problems_pids {db : DB} {l : List String} {ps : List StoredProblem}
    (h : fetch_problems db l = Except.ok ps) :
    ps.map (fun p => p.pid) = l := by
  induction l generalizing ps with
  | nil => unfold fetch_problems at h; cases h; rfl
  | cons i rest ih =>
    unfold fetch_problems at h
    cases hp : get_problem db (some i) none false with
    | error e => rw [hp] at h; exact absurd h (by simp)
    | ok p =>
      rw [hp] at h
      cases hr : fetch_problems db rest with
      | error e => rw [hr] at h; exact absurd h (by simp)
      | ok qs =>
        rw [hr] at h
        cases h
        simp [ih hr, (get_problem_ok hp).2.2]

theorem lookup_mem_pair {l : List (String × Int)} {k : String} {v : Int}
    (h : l.lookup k = some v) : (k, v) ∈ l := by
  induction l with
  | nil => simp [List.lookup] at h
  | cons a rest ih =>
    rw [List.lookup_cons] at h
    split at h
    · cases h
      have : k = a.1 := by
        rename_i hk
        exact beq_iff_eq.mp hk
      simp [this]
    · simp [ih h]

theorem problem_unlocked_append {sp : List StoredProblem} {P Q : StoredProblem}
    (hQ : problem_unlocked sp Q = true)
    (hw : ∀ kv ∈ Q.weightmap.getD [], 0 ≤ kv.2) :
    problem_unlocked (sp ++ [P]) Q = true := by
  unfold problem_unlocked at hQ ⊢
  cases hwm : Q.weightmap with
  | none => simp [hwm]
  | some wm =>
    cases hthr : Q.threshold with
    | none => simp [hwm, hthr]
    | some thr =>
      rw [hwm, hthr] at hQ
      simp only [decide_eq_true_eq] at hQ ⊢
      rw [List.map_append, List.sum_append]
      have hc : 0 ≤ ((wm.lookup P.pid).getD 0 : Int) := by
        cases hl : wm.lookup P.pid with
        | none => simp
        | some v =>
          have hv := hw (P.pid, v) (by simpa [hwm] using lookup_mem_pair hl)
          simpa using hv
      simp only [List.map_cons, List.map_nil, List.sum_cons, List.sum_nil, add_zero]
      omega

theorem sum_lookup_singleton (A : String) (w : Int) (l : List String) :
    (l.map fun i => ((([(A, w)] : List (String × Int)).lookup i).getD 0)).sum
      = (l.count A : Int) * w := by
  have hf : ∀ i : String, ((([(A, w)] : List (String × Int)).lookup i).getD 0)
      = if i = A then w else 0 := by
    intro i
    by_cases hi : i = A
    · subst hi; simp [List.lookup_cons]
    · have hb : (i == A) = false := by simp [hi]
      simp [List.lookup_cons, hb, hi]
  simp only [hf]
  induction l with
  | nil => simp
  | cons i rest ih =>
    rw [List.map_cons, List.sum_cons, ih, List.count_cons]
    by_cases hi : i = A
    · subst hi
      simp only [if_pos rfl, beq_self_eq_true, if_true]
      push_cast
      ring
    · have hne : (i == A) = false := by simp [hi]
      simp only [if_neg hi, hne, if_false]
      push_cast
      ring

theorem find?_append_left_none {α : Type} {p : α → Bool} {l₁ l₂ : List α}
    (h : l₁.find? p = none) : (l₁ ++ l₂).find? p = l₂.find? p := by
  induction l₁ with
  | nil => rfl
  | cons a rest ih =>
    rw [List.find?_cons] at h
    cases hp : p a with
    | true => rw [hp] at h; exact absurd h (by simp)
    | false =>
      rw [hp] at h
      rw [List.cons_append, List.find?_cons, hp]
      exact ih h

theorem get_problem_pid_isOk {db : DB} {i : String} {sd : Bool} {P : StoredProblem}
    (hmem : P ∈ db.problems) (hd : P.disabled = sd) (hi : P.pid = i) :
    (get_problem db (some i) none sd).isOk = true := by
  rw [get_problem_pid_eq_find]
  have hsome : (db.problems.find? (problem_match (some i) none sd)).isSome := by
    rw [List.find?_isSome]
    exact ⟨P, hmem, by simp [problem_match, hd, hi]⟩
  obtain ⟨q, hq⟩ := Option.isSome_iff_exists.mp hsome
  rw [hq]
  rfl

theorem get_problem_name_isOk {db : DB} {n : String} {sd : Bool} {P : StoredProblem}
    (hmem : P ∈ db.problems) (hd : P.disabled = sd) (hn : P.name = n) :
    (get_problem db none (some n) sd).isOk = true := by
  rw [get_problem_name_eq_find]
  have hsome : (db.problems.find? (problem_match none (some n) sd)).isSome := by
    rw [List.find?_isSome]
    exact ⟨P, hmem, by simp [problem_match, hd, hn]⟩
  obtain ⟨q, hq⟩ := Option.isSome_iff_exists.mp hsome
  rw [hq]
  rfl

theorem get_problem_pid_not_isOk {db : DB} {i : String} {sd : Bool}
    (h : ¬(get_problem db (some i) none sd).isOk = true) :
    db.problems.find? (problem_match (some i) none sd) = none := by
  rw [get_problem_pid_eq_find] at h
  cases hf : db.problems.find? (problem_match (some i) none sd) with
  | none => rfl
  | some q => rw [hf] at h; exact absurd rfl h

/-! Claim theorems. -/

/-- C1: the claim states that invalidate with filter tid=T sets correct=false
on every stored submission of team T and leaves other teams and other fields
untouched.  The code issues the store update without multi=True, so only the
first matching document is written: here team t1 has two correct submissions
and after invalidate(tid=t1) the second one still has correct=true, refuting
the claim (and the function's own docstring, which promises to invalidate
all matching submissions). -/
theorem c1_invalidate_updates_only_first :
    invalidate_submissions c1_db none none (some "t1") =
      ⟨[], [⟨"u1", "t1", 0, "pid-P", none, "k1", "misc", false⟩,
            ⟨"u2", "t1", 1, "pid-P", none, "k2", "misc", true⟩,
            ⟨"u3", "t2", 2, "pid-P", none, "k1", "misc", true⟩], []⟩ := rfl

/-- C2: the claim states that reevaluate(pid) modifies only submissions of
that pid, and in particular no submission of another problem sharing the
same key text.  The code's bulk update is filtered on the key alone, with no
pid restriction: here reevaluating pid-P1 (whose grader now accepts flag1)
also flips the correct flag of team t2's submission against pid-P2, which
merely shares the key text flag1. -/
theorem c2_reevaluate_touches_other_problem :
    reevaluate_submissions_for_problem c2_env c2_db "pid-P1" =
      Except.ok
        ⟨[⟨"P1", 10, "misc", "g1", "d", some 0, false, none, none, some [], none, none, "pid-P1"⟩,
          ⟨"P2", 20, "misc", "g2", "d", some 0, false, none, none, some [], none, none, "pid-P2"⟩],
         [⟨"u1", "t1", 0, "pid-P1", none, "flag1", "misc", true⟩,
          ⟨"u2", "t2", 1, "pid-P2", none, "flag1", "misc", true⟩], []⟩ := rfl

/-- C3: the claim states that the unlocked-pid computation is independent of
the category argument.  The code passes the category straight into the
solved-problem computation, so the weight sums change: with no category team
t1's solved crypto problem A unlocks B, while with category web the solved
set is empty and B stays locked. -/
theorem c3_unlocked_depends_on_category :
    get_unlocked_pids c3_db "t1" none = Except.ok ["pid-A", "pid-B"] ∧
    get_unlocked_pids c3_db "t1" (some "web") = Except.ok ["pid-A"] := ⟨rfl, rfl⟩

/-- C4 counterexample: an attempt whose (key, pid) pair is already among the
team's prior submissions is rejected by the duplicate-attempt gate, yet the
grader-invocation log of the attempt contains one call: the grader was
invoked before the duplicate check, refuting the claim that the grader is
never invoked for a duplicate-rejected attempt. -/
theorem c4_duplicate_attempt_reaches_grader_cex :
    submit_key c4_env c4_db "t1" "pid-P" "wrong" (some "u1") none 5 =
      ([⟨"pid-P", "wrong", some "u1"⟩],
        Except.error (Err.web "You or one of your teammates has already tried this solution.")) ∧
    (submit_key c4_env c4_db "t1" "pid-P" "wrong" (some "u1") none 5).1.length = 1 :=
  ⟨rfl, rfl⟩

/-- C5 counterexample: a stored problem with threshold 0 and weightmap A:1 is
unlocked for a team whose solved set is empty, so the claimed equivalence
(unlocked iff A solved and w ≥ T) fails at T = 0: the left side holds and
the right side does not. -/
theorem c5_threshold_zero_cex :
    get_unlocked_pids c5_cex_db "tX" none = Except.ok ["pid-P"] ∧
    get_solved_pids c5_cex_db "tX" none = [] := ⟨rfl, rfl⟩

/-- C7 counterexample: pid-B is in team t1's solved set, yet a new submission
for it with a fresh key is rejected by the unlock gate with an
InternalException, not with the user-facing conflict rejection the claim
promises (B's prerequisite weight threshold is unmet, so B is locked even
though it is solved). -/
theorem c7_solved_locked_internal_cex :
    "pid-B" ∈ get_solved_pids c7_cex_db "t1" none ∧
    submit_key c4_env c7_cex_db "t1" "pid-B" "newflag" (some "u1") none 9 =
      ([], Except.error (Err.internal
        "You can't submit flags to problems you haven't unlocked.")) :=
  ⟨by decide, rfl⟩

/-- C8 counterexample: a valid payload that explicitly sets disabled=true is
inserted successfully, but get_problem with the returned pid (and its
default show_disabled=False) then raises the not-found severe error instead
of returning the stored record, refuting the roundtrip claim for such
payloads. -/
theorem c8_disabled_payload_cex :
    insert_problem ⟨[], [], []⟩ c8_pay = Except.ok ("pid-X", c8_db1) ∧
    get_problem c8_db1 (some "pid-X") none false =
      Except.error (Err.severeInternal could_not_find_msg) := ⟨rfl, rfl⟩

/-- C9 counterexample: the store already holds a (disabled) problem named X
with pid pid-X, yet inserting a second problem with the same name succeeds
and persists a second record with the same name and pid, because the
duplicate checks look the stored problem up with show_disabled=False and
cannot see it. -/
theorem c9_disabled_duplicate_insert_cex :
    insert_problem c9_db c9_pay =
      Except.ok ("pid-X",
        ⟨[⟨"X", 5, "c", "g", "d", some 3, true, none, none, some [], none, none, "pid-X"⟩,
          ⟨"X", 7, "c2", "g2", "d2", some 1, false, none, none, some [], none, none, "pid-X"⟩],
         [], []⟩) := rfl

/-- C7 (amended): for a shape-valid submission against a pid already in the
team's solved set, the attempt is rejected before grading and before
persistence (the grader-invocation log is empty and no record is stored):
with the conflict (already-solved) WebException when the pid is still
unlocked for the team, but with the unlock-gate InternalException when the
pid's threshold is no longer met — the unlock gate runs first, so an
already-solved yet locked pid is not rejected with a conflict error. -/
theorem c7_already_solved_rejected (env : GraderEnv) (db : DB) (tid pid key : String)
    (uid : Option String) (ip : Option String) (now : Nat) (u : List String)
    (htl : tid.length ≤ 100) (hpl : pid.length ≤ 100) (hkl : key.length ≤ 100)
    (hu : get_unlocked_pids db tid none = Except.ok u)
    (hs : pid ∈ get_solved_pids db tid none) :
    (pid ∈ u → submit_key env db tid pid key uid ip now =
      ([], Except.error (Err.web "You have already solved this problem."))) ∧
    (pid ∉ u → submit_key env db tid pid key uid ip now =
      ([], Except.error (Err.internal
        "You can't submit flags to problems you haven't unlocked."))) := by
  constructor
  · intro hm
    simp [submit_key, hu, hm, hs,
      Nat.not_lt.mpr htl, Nat.not_lt.mpr hpl, Nat.not_lt.mpr hkl]
  · intro hm
    simp [submit_key, hu, hm,
      Nat.not_lt.mpr htl, Nat.not_lt.mpr hpl, Nat.not_lt.mpr hkl]

/-- C7 witness: team t1 has solved pid-P, which is still unlocked; submitting
a fresh key is rejected with the already-solved conflict error and the
grader is not invoked. -/
theorem c7_already_solved_rejected_witness :
    submit_key c4_env c7_wit_db "t1" "pid-P" "other" (some "u1") none 3 =
      ([], Except.error (Err.web "You have already solved this problem.")) :=
  (c7_already_solved_rejected c4_env c7_wit_db "t1" "pid-P" "other" (some "u1") none 3
    ["pid-P"] (by decide) (by decide) (by decide) rfl (by decide)).1 (by decide)

/-- C4 (amended): when the earlier gates pass (shape-valid input, unlocked
and unsolved pid, resolvable user, loadable grader) and the submitted
(key, pid) pair already appears among the team's prior submissions, the
attempt is rejected by the duplicate-attempt gate — but only after the
grading step: the grader-invocation log of the rejected attempt contains
exactly the one call made for it. -/
theorem c4_duplicate_gate_after_grading (env : GraderEnv) (db : DB)
    (tid pid key : String) (uid : Option String) (u0 : String) (ip : Option String)
    (now : Nat) (u : List String) (P : StoredProblem)
    (f : Option String → String → Bool × String)
    (htl : tid.length ≤ 100) (hpl : pid.length ≤ 100) (hkl : key.length ≤ 100)
    (hu : get_unlocked_pids db tid none = Except.ok u) (hm : pid ∈ u)
    (hs : pid ∉ get_solved_pids db tid none)
    (husr : get_user db.users uid = some u0)
    (hP : get_problem db (some pid) none false = Except.ok P)
    (hg : env P.grader = some f)
    (hd : (key, pid) ∈ (get_submissions db none none (some tid) none).map
      (fun s => (s.key, s.pid))) :
    submit_key env db tid pid key uid ip now =
      ([⟨pid, key, some u0⟩],
        Except.error (Err.web
          "You or one of your teammates has already tried this solution.")) := by
  simp [submit_key, grade_problem, hu, hm, hs, husr, hP, hg, hd,
    Nat.not_lt.mpr htl, Nat.not_lt.mpr hpl, Nat.not_lt.mpr hkl]

/-- C4 witness: a concrete duplicate attempt that passes the earlier gates is
graded (one grader invocation) and then rejected by the duplicate gate. -/
theorem c4_duplicate_gate_after_grading_witness :
    submit_key c4_env c4_db "t1" "pid-P" "wrong" (some "u1") none 7 =
      ([⟨"pid-P", "wrong", some "u1"⟩],
        Except.error (Err.web
          "You or one of your teammates has already tried this solution.")) :=
  c4_duplicate_gate_after_grading c4_env c4_db "t1" "pid-P" "wrong" (some "u1") "u1"
    none 7 ["pid-P"]
    ⟨"P", 10, "misc", "g", "d", some 0, false, none, none, some [], none, none, "pid-P"⟩
    (fun _ k => (k == "flag", "msg"))
    (by decide) (by decide) (by decide) rfl (by decide) (by decide) rfl rfl rfl (by decide)

/-- C10: get_problem matches the stored disabled flag exactly against
show_disabled: with show_disabled=true only disabled problems are returned;
when every stored problem with the looked-up pid is disabled, the default
show_disabled=false lookup raises the not-found severe error even though the
problem exists, and consequently remove_problem and update_problem fail the
same way, while insert_problem's duplicate pid/name checks do not see
disabled problems and let the insert through. -/
theorem c10_get_problem_disabled_matching (db : DB) (pid : String) :
    (∀ P, get_problem db (some pid) none true = Except.ok P → P.disabled = true) ∧
    ((∀ P ∈ db.problems, P.pid = pid → P.disabled = true) →
      get_problem db (some pid) none false =
        Except.error (Err.severeInternal could_not_find_msg) ∧
      remove_problem db pid = Except.error (Err.severeInternal could_not_find_msg) ∧
      (∀ upd, update_problem db pid upd =
        Except.error (Err.severeInternal could_not_find_msg))) ∧
    (∀ q : ProblemInput, (∀ P ∈ db.problems,
        (P.pid = hash q.name ∨ P.name = q.name) → P.disabled = true) →
      (insert_problem db q).isOk = true) := by
  refine ⟨fun P h => (get_problem_ok h).2.1, fun hall => ?_, fun q hq => ?_⟩
  · have hfind : db.problems.find? (problem_match (some pid) none false) = none := by
      rw [List.find?_eq_none]
      intro a ha
      simp only [problem_match, Bool.and_eq_true, beq_iff_eq]
      rintro ⟨h1, h2⟩
      rw [hall a ha h2] at h1
      exact absurd h1 (by simp)
    have hg : get_problem db (some pid) none false =
        Except.error (Err.severeInternal could_not_find_msg) := by
      rw [get_problem_pid_eq_find, hfind]
    refine ⟨hg, ?_, fun upd => ?_⟩
    · unfold remove_problem
      rw [hg]
    · unfold update_problem
      rw [hg]
  · have h1 : db.problems.find? (problem_match (some (hash q.name)) none false) = none := by
      rw [List.find?_eq_none]
      intro a ha
      simp only [problem_match, Bool.and_eq_true, beq_iff_eq]
      rintro ⟨ha1, ha2⟩
      rw [hq a ha (Or.inl ha2)] at ha1
      exact absurd ha1 (by simp)
    have h2 : db.problems.find? (problem_match none (some q.name) false) = none := by
      rw [List.find?_eq_none]
      intro a ha
      simp only [problem_match, Bool.and_eq_true, beq_iff_eq]
      rintro ⟨ha1, ha2⟩
      rw [hq a ha (Or.inr ha2)] at ha1
      exact absurd ha1 (by simp)
    simp [insert_problem, get_problem_pid_eq_find, get_problem_name_eq_find, h1, h2,
      Except.isOk, Except.toBool]

/-- C10 witness: the only problem with pid pid-X in the store is disabled;
the default lookup fails with the severe not-found error, and inserting a
fresh problem named X (hence with the same derived pid) succeeds because the
duplicate checks cannot see the disabled record. -/
theorem c10_get_problem_disabled_matching_witness :
    get_problem c10_db (some "pid-X") none false =
      Except.error (Err.severeInternal could_not_find_msg) ∧
    (insert_problem c10_db ⟨"X", 7, "c2", "g2", "d2", 1,
      none, none, none, none, none, none⟩).isOk = true :=
  ⟨((c10_get_problem_disabled_matching c10_db "pid-X").2.1 (by decide)).1,
   (c10_get_problem_disabled_matching c10_db "pid-X").2.2
     ⟨"X", 7, "c2", "g2", "d2", 1, none, none, none, none, none, none⟩ (by decide)⟩

/-- C9 (amended): for every stored problem that is enabled, inserting a
second problem sharing its name or its pid (the hash of the new problem's
name) is rejected with a WebException conflict and nothing is persisted; a
stored problem that is disabled escapes the duplicate checks (see the
counterexample). -/
theorem c9_insert_duplicate_rejected (db : DB) (q : ProblemInput) (P : StoredProblem)
    (hmem : P ∈ db.problems) (hen : P.disabled = false)
    (hdup : P.name = q.name ∨ P.pid = hash q.name) :
    insert_problem db q =
        Except.error (Err.web "Problem with identical pid already exists.") ∨
    insert_problem db q =
        Except.error (Err.web "Problem with identical name already exists.") := by
  unfold insert_problem
  by_cases h1 : (get_problem db (some (hash q.name)) none false).isOk = true
  · rw [if_pos h1]
    exact Or.inl rfl
  · cases hdup with
    | inr hpid => exact absurd (get_problem_pid_isOk hmem hen hpid) h1
    | inl hname =>
      rw [if_neg h1, if_pos (get_problem_name_isOk hmem hen hname)]
      exact Or.inr rfl

/-- C9 witness: inserting a payload named X while an enabled problem named X
is stored is rejected with a duplicate conflict error. -/
theorem c9_insert_duplicate_rejected_witness :
    insert_problem c9_wit_db c9_pay =
        Except.error (Err.web "Problem with identical pid already exists.") ∨
    insert_problem c9_wit_db c9_pay =
        Except.error (Err.web "Problem with identical name already exists.") :=
  c9_insert_duplicate_rejected c9_wit_db c9_pay
    ⟨"X", 5, "c", "g", "d", some 3, false, none, none, some [], none, none, "pid-X"⟩
    (by decide) rfl (Or.inl rfl)

/-- C8 (amended): for every valid problem payload that does not explicitly
set disabled=true, a successful insert followed by get_problem on the
returned pid yields exactly the input payload plus the derived and defaulted
fields: the pid is the hash of the name, disabled defaults to false, the
threshold is stored as given, and the weightmap is rekeyed from problem
names to pids with unchanged weights.  (A payload with disabled=true is
inserted but the subsequent default lookup fails; see the counterexample.) -/
theorem c8_insert_then_get_roundtrip (db : DB) (p : ProblemInput) (pid : String)
    (db2 : DB) (h : insert_problem db p = Except.ok (pid, db2))
    (hd : p.disabled ≠ some true) :
    pid = hash p.name ∧
    get_problem db2 (some pid) none false = Except.ok
      ⟨p.name, p.score, p.category, p.grader, p.description, some p.threshold,
        false, p.autogen, p.related_problems,
        some ((p.weightmap.getD []).map (fun nw => (hash nw.1, nw.2))),
        p.tags, p.hint, hash p.name⟩ := by
  have hdis : p.disabled.getD false = false := by
    cases hpd : p.disabled with
    | none => rfl
    | some b =>
      cases b with
      | false => rfl
      | true => exact absurd hpd hd
  unfold insert_problem at h
  by_cases h1 : (get_problem db (some (hash p.name)) none false).isOk = true
  · rw [if_pos h1] at h
    exact absurd h (by simp)
  · rw [if_neg h1] at h
    by_cases h2 : (get_problem db none (some p.name) false).isOk = true
    · rw [if_pos h2] at h
      exact absurd h (by simp)
    · rw [if_neg h2] at h
      have hpid : pid = hash p.name := by
        have := congrArg (fun x => match x with
          | Except.ok (i, _) => i
          | Except.error _ => pid) h
        simpa using this.symm
      subst hpid
      have hdb : db2 = { db with problems := db.problems ++
          [⟨p.name, p.score, p.category, p.grader, p.description, some p.threshold,
            p.disabled.getD false, p.autogen, p.related_problems,
            some ((p.weightmap.getD []).map (fun nw => (hash nw.1, nw.2))),
            p.tags, p.hint, hash p.name⟩] } := by
        have := congrArg (fun x => match x with
          | Except.ok (_, d) => d
          | Except.error _ => db2) h
        simpa using this.symm
      subst hdb
      refine ⟨rfl, ?_⟩
      rw [get_problem_pid_eq_find]
      have hold : db.problems.find? (problem_match (some (hash p.name)) none false)
          = none := get_problem_pid_not_isOk h1
      rw [show ({ db with problems := db.problems ++
          [⟨p.name, p.score, p.category, p.grader, p.description, some p.threshold,
            p.disabled.getD false, p.autogen, p.related_problems,
            some ((p.weightmap.getD []).map (fun nw => (hash nw.1, nw.2))),
            p.tags, p.hint, hash p.name⟩] } : DB).problems = db.problems ++
          [⟨p.name, p.score, p.category, p.grader, p.description, some p.threshold,
            p.disabled.getD false, p.autogen, p.related_problems,
            some ((p.weightmap.getD []).map (fun nw => (hash nw.1, nw.2))),
            p.tags, p.hint, hash p.name⟩] from rfl]
      rw [find?_append_left_none hold]
      rw [List.find?_cons]
      have hmatch : problem_match (some (hash p.name)) none false
          ⟨p.name, p.score, p.category, p.grader, p.description, some p.threshold,
            p.disabled.getD false, p.autogen, p.related_problems,
            some ((p.weightmap.getD []).map (fun nw => (hash nw.1, nw.2))),
            p.tags, p.hint, hash p.name⟩ = true := by
        simp [problem_match, hdis]
      rw [hmatch, hdis]

/-- C8 witness: inserting a payload (name Y, weightmap over the name Y) into
an empty store and looking the returned pid up yields the payload plus the
derived pid, the defaulted disabled=false and the name-to-pid rekeyed
weightmap. -/
theorem c8_insert_then_get_roundtrip_witness :
    ("pid-Y" : String) = hash "Y" ∧
    get_problem ⟨[⟨"Y", 5, "c", "g", "d", some 3, false, none, none,
        some [("pid-Y", 2)], none, none, "pid-Y"⟩], [], []⟩
      (some "pid-Y") none false = Except.ok
      ⟨"Y", 5, "c", "g", "d", some 3, false, none, none,
        some [("pid-Y", 2)], none, none, "pid-Y"⟩ :=
  c8_insert_then_get_roundtrip ⟨[], [], []⟩ c8_wit_pay "pid-Y"
    ⟨[⟨"Y", 5, "c", "g", "d", some 3, false, none, none,
        some [("pid-Y", 2)], none, none, "pid-Y"⟩], [], []⟩
    rfl (by decide)

/-- C5 (amended): for a stored enabled problem P with threshold T and
weightmap consisting of the single entry A with nonnegative weight w, and a
team X whose solved list names A at most once, P is unlocked for X iff
T = 0 (a zero threshold is met by the empty weight sum, even with A
unsolved — see the counterexample) or A is in X's solved set with w ≥ T.
In particular, for T ≥ 1 the claimed boundary holds: a weight sum equal to
the threshold unlocks and one of threshold minus one does not. -/
theorem c5_unlocked_iff_weight_threshold (db : DB) (X A : String) (w : Int) (T : Nat)
    (P : StoredProblem) (u : List String)
    (hmem : P ∈ db.problems) (hen : P.disabled = false)
    (hwm : P.weightmap = some [(A, w)]) (hthr : P.threshold = some T)
    (huniq : ∀ Q ∈ db.problems, Q.pid = P.pid → Q = P)
    (hw : 0 ≤ w)
    (hu : get_unlocked_pids db X none = Except.ok u)
    (hcount : (get_solved_pids db X none).count A ≤ 1) :
    (P.pid ∈ u ↔ (T = 0 ∨ (A ∈ get_solved_pids db X none ∧ (T : Int) ≤ w))) := by
  unfold get_unlocked_pids at hu
  cases hsp : get_solved_problems db X none with
  | error e => rw [hsp] at hu; exact absurd hu (by simp)
  | ok sp =>
    rw [hsp] at hu
    have hu' : u = ((get_all_problems db none false).filter
        (problem_unlocked sp)).map (fun p => p.pid) := by
      have := congrArg (fun x => match x with
        | Except.ok l => l
        | Except.error _ => u) hu
      simpa using this.symm
    subst hu'
    unfold get_solved_problems at hsp
    have hpids := fetch_problems_pids hsp
    have hmemiff : P.pid ∈ ((get_all_problems db none false).filter
        (problem_unlocked sp)).map (fun p => p.pid) ↔ problem_unlocked sp P = true := by
      constructor
      · intro hx
        rw [List.mem_map] at hx
        obtain ⟨Q, hQ, hQpid⟩ := hx
        rw [List.mem_filter] at hQ
        have hQdb := mem_get_all_problems.mp hQ.1
        have hQP := huniq Q hQdb.1 hQpid
        rw [← hQP]
        exact hQ.2
      · intro hup
        rw [List.mem_map]
        exact ⟨P, List.mem_filter.mpr ⟨mem_get_all_problems.mpr ⟨hmem, hen⟩, hup⟩, rfl⟩
    rw [hmemiff]
    simp only [problem_unlocked, hwm, hthr, decide_eq_true_eq]
    have hmm : sp.map (fun p => ((([(A, w)] : List (String × Int)).lookup p.pid).getD 0))
        = (sp.map (fun p => p.pid)).map
            (fun i => ((([(A, w)] : List (String × Int)).lookup i).getD 0)) := by
      rw [List.map_map]
      rfl
    rw [hmm, hpids, sum_lookup_singleton]
    have hc01 : (get_solved_pids db X none).count A = 0 ∨
        (get_solved_pids db X none).count A = 1 := by omega
    cases hc01 with
    | inl h0 =>
      have hA : A ∉ get_solved_pids db X none := List.count_eq_zero.mp h0
      rw [h0]
      simp only [Nat.cast_zero, zero_mul]
      constructor
      · intro hle
        left
        omega
      · rintro (h0' | ⟨hmemA, _⟩)
        · subst h0'
          simp
        · exact absurd hmemA hA
    | inr h1 =>
      have hA : A ∈ get_solved_pids db X none := by
        by_contra hno
        rw [List.count_eq_zero.mpr hno] at h1
        exact absurd h1 (by simp)
      rw [h1]
      simp only [Nat.cast_one, one_mul]
      constructor
      · intro hle
        exact Or.inr ⟨hA, hle⟩
      · rintro (h0' | ⟨_, hle⟩)
        · subst h0'
          simpa using hw
        · exact hle

/-- C5 witness: problem P (threshold 2, weightmap pid-A:3) and a team that
has solved A exactly once; the amended equivalence instantiates to the
boundary-satisfying case 2 ≤ 3 with P unlocked. -/
theorem c5_unlocked_iff_weight_threshold_witness :
    (("pid-P" : String) ∈ (["pid-A", "pid-P"] : List String)) ↔
      ((2 : Nat) = 0 ∨ ("pid-A" ∈ get_solved_pids c5_wit_db "tX" none ∧
        ((2 : Nat) : Int) ≤ 3)) :=
  c5_unlocked_iff_weight_threshold c5_wit_db "tX" "pid-A" 3 2
    ⟨"P", 20, "misc", "gp", "d", some 2, false, none, none,
      some [("pid-A", 3)], none, none, "pid-P"⟩
    ["pid-A", "pid-P"]
    (by decide) rfl rfl rfl (by decide) (by decide) rfl (by decide)

/-- C6: submitting the same (tid, pid, key) twice never yields two stored
submissions.  Under the gating hypotheses of a first accepted attempt
(shape-valid input, unlocked and unsolved pid, resolvable user, loadable
grader, no prior identical attempt) and nonnegative prerequisite weights,
the first call stores the one record and the immediately repeated identical
call is rejected with a user-facing WebException conflict before
persistence: the already-solved rejection when the first grading was
correct, the duplicate-attempt rejection when it was incorrect; the store
holds exactly one record for (tid, pid, key). -/
theorem c6_no_duplicate_stored_submission
    (env : GraderEnv) (db : DB) (tid pid key : String) (uid : Option String)
    (u0 : String) (ip ip2 : Option String) (now now2 : Nat)
    (sp : List StoredProblem) (P : StoredProblem)
    (f : Option String → String → Bool × String)
    (htl : tid.length ≤ 100) (hpl : pid.length ≤ 100) (hkl : key.length ≤ 100)
    (hsp : fetch_problems db (get_solved_pids db tid none) = Except.ok sp)
    (hm : pid ∈ ((get_all_problems db none false).filter
      (problem_unlocked sp)).map (fun p => p.pid))
    (hs : pid ∉ get_solved_pids db tid none)
    (husr : get_user db.users uid = some u0)
    (hP : get_problem db (some pid) none false = Except.ok P)
    (hg : env P.grader = some f)
    (hd : (key, pid) ∉ (get_submissions db none none (some tid) none).map
      (fun s => (s.key, s.pid)))
    (hw : ∀ Q ∈ db.problems, ∀ kv ∈ Q.weightmap.getD [], 0 ≤ kv.2) :
    submit_key env db tid pid key uid ip now =
      ([⟨pid, key, some u0⟩],
        Except.ok (⟨(f (some u0) key).1, P.score, (f (some u0) key).2⟩,
          { db with submissions := db.submissions ++
              [⟨u0, tid, now, pid, ip, key, P.category, (f (some u0) key).1⟩] })) ∧
    submit_key env { db with submissions := db.submissions ++
        [⟨u0, tid, now, pid, ip, key, P.category, (f (some u0) key).1⟩] }
        tid pid key uid ip2 now2 =
      ((if (f (some u0) key).1 then [] else [⟨pid, key, some u0⟩]),
        Except.error (Err.web (if (f (some u0) key).1
          then "You have already solved this problem."
          else "You or one of your teammates has already tried this solution."))) ∧
    (({ db with submissions := db.submissions ++
        [⟨u0, tid, now, pid, ip, key, P.category, (f (some u0) key).1⟩] } : DB).submissions.filter
      (fun s => s.tid == tid && s.pid == pid && s.key == key)).length = 1 := by
  have hu : get_unlocked_pids db tid none = Except.ok
      (((get_all_problems db none false).filter (problem_unlocked sp)).map
        (fun p => p.pid)) := by
    unfold get_unlocked_pids get_solved_problems
    rw [hsp]
  have hnil : db.submissions.filter
      (fun s => s.tid == tid && s.pid == pid && s.key == key) = [] := by
    rw [List.filter_eq_nil_iff]
    intro s hsmem hpred
    apply hd
    rw [List.mem_map]
    simp only [Bool.and_eq_true, beq_iff_eq] at hpred
    refine ⟨s, ?_, ?_⟩
    · unfold get_submissions
      rw [List.mem_filter]
      exact ⟨hsmem, by simp [hpred.1.1]⟩
    · simp [hpred.1.2, hpred.2]
  refine ⟨?_, ?_, ?_⟩
  · simp [submit_key, grade_problem, hu, hm, hs, husr, hP, hg, hd,
      Nat.not_lt.mpr htl, Nat.not_lt.mpr hpl, Nat.not_lt.mpr hkl]
  · cases hb : (f (some u0) key).1 with
    | false =>
      have hsubs2 : get_submissions { db with submissions := db.submissions ++
          [⟨u0, tid, now, pid, ip, key, P.category, false⟩] } none none (some tid) none
          = get_submissions db none none (some tid) none ++
            [⟨u0, tid, now, pid, ip, key, P.category, false⟩] := by
        unfold get_submissions
        rw [show ({ db with submissions := db.submissions ++
          [⟨u0, tid, now, pid, ip, key, P.category, false⟩] } : DB).submissions
          = db.submissions ++ [⟨u0, tid, now, pid, ip, key, P.category, false⟩] from rfl]
        rw [List.filter_append]
        simp
      have hsolved2 : get_solved_pids { db with submissions := db.submissions ++
          [⟨u0, tid, now, pid, ip, key, P.category, false⟩] } tid none
          = get_solved_pids db tid none := by
        unfold get_solved_pids
        rw [hsubs2, List.filter_append]
        simp
      have hu2 : get_unlocked_pids { db with submissions := db.submissions ++
          [⟨u0, tid, now, pid, ip, key, P.category, false⟩] } tid none = Except.ok
          (((get_all_problems db none false).filter (problem_unlocked sp)).map
            (fun p => p.pid)) := by
        unfold get_unlocked_pids get_solved_problems
        rw [hsolved2, fetch_problems_submissions_eq, hsp]
        rfl
      simp [submit_key, grade_problem, hu2, hm, hs, husr, hP, hg,
        get_problem_submissions_eq, hsolved2, hsubs2,
        Nat.not_lt.mpr htl, Nat.not_lt.mpr hpl, Nat.not_lt.mpr hkl]
    | true =>
      have hsubs2 : get_submissions { db with submissions := db.submissions ++
          [⟨u0, tid, now, pid, ip, key, P.category, true⟩] } none none (some tid) none
          = get_submissions db none none (some tid) none ++
            [⟨u0, tid, now, pid, ip, key, P.category, true⟩] := by
        unfold get_submissions
        rw [show ({ db with submissions := db.submissions ++
          [⟨u0, tid, now, pid, ip, key, P.category, true⟩] } : DB).submissions
          = db.submissions ++ [⟨u0, tid, now, pid, ip, key, P.category, true⟩] from rfl]
        rw [List.filter_append]
        simp
      have hsolved2 : get_solved_pids { db with submissions := db.submissions ++
          [⟨u0, tid, now, pid, ip, key, P.category, true⟩] } tid none
          = get_solved_pids db tid none ++ [pid] := by
        unfold get_solved_pids
        rw [hsubs2, List.filter_append]
        simp
      have hone : fetch_problems db [pid] = Except.ok [P] := by
        simp [fetch_problems, hP]
      have hu2 : get_unlocked_pids { db with submissions := db.submissions ++
          [⟨u0, tid, now, pid, ip, key, P.category, true⟩] } tid none = Except.ok
          (((get_all_problems db none false).filter (problem_unlocked (sp ++ [P]))).map
            (fun p => p.pid)) := by
        unfold get_unlocked_pids get_solved_problems
        rw [hsolved2, fetch_problems_submissions_eq,
          fetch_problems_append hsp hone]
        rfl
      have hm2 : pid ∈ ((get_all_problems db none false).filter
          (problem_unlocked (sp ++ [P]))).map (fun p => p.pid) := by
        rw [List.mem_map] at hm ⊢
        obtain ⟨Q, hQ, hQpid⟩ := hm
        rw [List.mem_filter] at hQ
        have hQdb := mem_get_all_problems.mp hQ.1
        refine ⟨Q, List.mem_filter.mpr ⟨hQ.1, ?_⟩, hQpid⟩
        exact problem_unlocked_append hQ.2 (hw Q hQdb.1)
      simp [submit_key, hu2, hm2, hsolved2,
        Nat.not_lt.mpr htl, Nat.not_lt.mpr hpl, Nat.not_lt.mpr hkl]
  · rw [show ({ db with submissions := db.submissions ++
        [⟨u0, tid, now, pid, ip, key, P.category, (f (some u0) key).1⟩] } : DB).submissions
        = db.submissions ++ [⟨u0, tid, now, pid, ip, key, P.category, (f (some u0) key).1⟩]
        from rfl]
    rw [List.filter_append, hnil]
    simp

/-- C6 witness: a fresh correct submission for pid-P is stored; submitting
the identical triple again is rejected with the already-solved conflict
error, and the store holds exactly one record for it. -/
theorem c6_no_duplicate_stored_submission_witness :
    submit_key c4_env c6_db "t1" "pid-P" "flag" (some "u1") none 0 =
      ([⟨"pid-P", "flag", some "u1"⟩],
        Except.ok (⟨true, 10, "msg"⟩,
          ⟨[⟨"P", 10, "misc", "g", "d", some 0, false, none, none, some [],
              none, none, "pid-P"⟩],
           [⟨"u1", "t1", 0, "pid-P", none, "flag", "misc", true⟩], ["u1"]⟩)) ∧
    submit_key c4_env
      ⟨[⟨"P", 10, "misc", "g", "d", some 0, false, none, none, some [],
          none, none, "pid-P"⟩],
       [⟨"u1", "t1", 0, "pid-P", none, "flag", "misc", true⟩], ["u1"]⟩
      "t1" "pid-P" "flag" (some "u1") none 1 =
      ([], Except.error (Err.web "You have already solved this problem.")) ∧
    ((⟨[⟨"P", 10, "misc", "g", "d", some 0, false, none, none, some [],
          none, none, "pid-P"⟩],
       [⟨"u1", "t1", 0, "pid-P", none, "flag", "misc", true⟩], ["u1"]⟩ : DB).submissions.filter
      (fun s => s.tid == "t1" && s.pid == "pid-P" && s.key == "flag")).length = 1 :=
  c6_no_duplicate_stored_submission c4_env c6_db "t1" "pid-P" "flag" (some "u1") "u1"
    none none 0 1 [] ⟨"P", 10, "misc", "g", "d", some 0, false, none, none, some [],
      none, none, "pid-P"⟩ (fun _ k => (k == "flag", "msg"))
    (by decide) (by decide) (by decide) rfl (by decide) (by decide) rfl rfl rfl
    (by decide) (by decide)

end PicoCTF
